import Mathlib

/-!
Verification of the X431-to-CSV binary decoder.

The development shallowly embeds the two Python parsers of the repository,
X431Parser (x431_to_csv.py, the verbose header policy) and X431CleanParser
(x431_to_csv_clean.py, the normalized header policy).  A file is modelled as
a list of byte values; Python operations that can raise (struct.unpack_from
on a too-short buffer, list indexing out of range, integer division by zero)
are modelled with Option, where none stands for a raised exception.
-/

/-- Byte of the buffer at a given offset; 0 outside the buffer (all uses are
bounds-guarded before this is consulted). -/
def byteAt (data : List Nat) (i : Nat) : Nat := data.getD i 0

/-- Little-endian 16-bit value at an offset (value of struct.unpack_from with
format <H once the bounds are known to hold). -/
def u16at (data : List Nat) (i : Nat) : Nat :=
  byteAt data i + 256 * byteAt data (i + 1)

/-- Little-endian 32-bit value at an offset (struct.unpack_from with <I once
the bounds are known to hold). -/
def u32at (data : List Nat) (i : Nat) : Nat :=
  byteAt data i + 256 * byteAt data (i + 1) + 65536 * byteAt data (i + 2) +
    16777216 * byteAt data (i + 3)

/-- Model of struct.unpack_from with format <B: none models the raised
struct.error when fewer than 1 byte remains at the offset. -/
def readU8 (data : List Nat) (i : Nat) : Option Nat :=
  if i + 1 ≤ data.length then some (byteAt data i) else none

/-- Model of struct.unpack_from with format <H: none models the raised
struct.error when fewer than 2 bytes remain at the offset. -/
def readU16 (data : List Nat) (i : Nat) : Option Nat :=
  if i + 2 ≤ data.length then some (u16at data i) else none

/-- Model of struct.unpack_from with format <I: none models the raised
struct.error when fewer than 4 bytes remain at the offset. -/
def readU32 (data : List Nat) (i : Nat) : Option Nat :=
  if i + 4 ≤ data.length then some (u32at data i) else none

/-- Model of Python list subscription with a possibly negative index:
a negative index counts from the end of the list; none models the raised
IndexError when the effective index is out of range. -/
def pyGet (l : List String) (i : Int) : Option String :=
  let j : Int := if i < 0 then i + l.length else i
  if 0 ≤ j ∧ j < (l.length : Int) then l.get? j.toNat else none

/-- Whether a byte is a UTF-8 continuation byte. -/
def isCont (b : Nat) : Bool := decide (128 ≤ b ∧ b ≤ 191)

/-- Admissible range of the second byte of a three-byte UTF-8 sequence
(rules out overlong forms and surrogate code points). -/
def snd3ok (b0 b1 : Nat) : Bool :=
  decide ((if b0 = 224 then 160 ≤ b1 else 128 ≤ b1) ∧
          (if b0 = 237 then b1 ≤ 159 else b1 ≤ 191))

/-- Admissible range of the second byte of a four-byte UTF-8 sequence
(rules out overlong forms and code points above 0x10FFFF). -/
def snd4ok (b0 b1 : Nat) : Bool :=
  decide ((if b0 = 240 then 144 ≤ b1 else 128 ≤ b1) ∧
          (if b0 = 244 then b1 ≤ 143 else b1 ≤ 191))

/-- One step of UTF-8 decoding: the number of bytes consumed and the decoded
character, or none for an error event.  On an error the consumed count is the
maximal subpart (at least 1 byte), matching the error handling of Python's
bytes.decode. -/
def utf8Step : List Nat → Nat × Option Char
  | [] => (1, none)
  | b0 :: rest =>
    if b0 < 128 then (1, some (Char.ofNat b0))
    else if 194 ≤ b0 ∧ b0 ≤ 223 then
      match rest with
      | b1 :: _ =>
        if isCont b1 then (2, some (Char.ofNat ((b0 - 192) * 64 + (b1 - 128))))
        else (1, none)
      | [] => (1, none)
    else if 224 ≤ b0 ∧ b0 ≤ 239 then
      match rest with
      | b1 :: rest2 =>
        if snd3ok b0 b1 then
          match rest2 with
          | b2 :: _ =>
            if isCont b2 then
              (3, some (Char.ofNat ((b0 - 224) * 4096 + (b1 - 128) * 64 + (b2 - 128))))
            else (2, none)
          | [] => (2, none)
        else (1, none)
      | [] => (1, none)
    else if 240 ≤ b0 ∧ b0 ≤ 244 then
      match rest with
      | b1 :: rest2 =>
        if snd4ok b0 b1 then
          match rest2 with
          | b2 :: rest3 =>
            if isCont b2 then
              match rest3 with
              | b3 :: _ =>
                if isCont b3 then
                  (4, some (Char.ofNat ((b0 - 240) * 262144 + (b1 - 128) * 4096 +
                    (b2 - 128) * 64 + (b3 - 128))))
                else (3, none)
              | [] => (3, none)
            else (2, none)
          | [] => (2, none)
        else (1, none)
      | [] => (1, none)
    else (1, none)

/-- The Unicode replacement character U+FFFD. -/
def replacementChar : Char := '�'

/-- Fueled UTF-8 decoding loop.  Each step consumes at least one byte, so a
fuel equal to the length of the byte list is always sufficient.  With
substituteErrors = false an error event contributes nothing (Python
errors=ignore); with substituteErrors = true it contributes one replacement
character (Python errors=replace). -/
def utf8DecodeGo (substituteErrors : Bool) : Nat → List Nat → List Char
  | 0, _ => []
  | _, [] => []
  | fuel + 1, bs =>
    let step := utf8Step bs
    (match step.2 with
     | some c => [c]
     | none => if substituteErrors then [replacementChar] else []) ++
      utf8DecodeGo substituteErrors fuel (bs.drop (max step.1 1))

/-- UTF-8 decoding of a byte list, with the error handling selected by
substituteErrors (false: drop errors, true: replacement characters). -/
def utf8Decode (substituteErrors : Bool) (bs : List Nat) : List Char :=
  utf8DecodeGo substituteErrors bs.length bs

/-- Model of value_bytes.decode with encoding utf-8 and errors=ignore, as
both parsers perform it on a string-table payload. -/
def strOfBytes (bs : List Nat) : String := ⟨utf8Decode false bs⟩

/-- Generic per-channel loop shared by the header extractors: starting at a
byte offset, repeatedly read a 16-bit index, resolve it with f (which also
receives the 0-based channel position), and advance the offset by 4 bytes.
none models an exception escaping from the loop body. -/
def chanLoop (data : List Nat) (f : Nat → Nat → Option String) :
    Nat → Nat → Nat → Option (List String)
  | _, _, 0 => some []
  | off, i, n + 1 =>
    (readU16 data off).bind fun idx =>
      (f i idx).bind fun s =>
        (chanLoop data f (off + 4) (i + 1) n).map fun rest => s :: rest

namespace X431

/-! Embedding of class X431Parser from src/x431_to_csv.py.  The byte buffer
(self.file_data) and the state the parse method threads through the object
(self.column_count, self.point_values) are passed explicitly. -/

/-- Embeds X431Parser._extract_channel_count: the byte at 0x134 divided
by 4 (integer division). -/
def extract_channel_count (data : List Nat) : Option Nat :=
  (readU8 data 0x134).map (fun b => b / 4)

/-- Fueled form of the string-table while-loop of
X431Parser._extract_point_values.  Each iteration advances the offset by
the 16-bit length it read, which the loop guard forces to be at least 3, so
a fuel of data.length + 1 is always sufficient (see pvLoopGo_congr). -/
def pvLoopGo (data : List Nat) : Nat → Nat → List String
  | 0, _ => []
  | fuel + 1, offset =>
    if offset + 2 > data.length then []
    else
      if u16at data offset < 3 ∨ offset + u16at data offset > data.length then []
      else
        strOfBytes ((data.drop (offset + 2)).take (u16at data offset - 3)) ::
          pvLoopGo data fuel (offset + u16at data offset)

/-- The string-table loop of X431Parser._extract_point_values run from a
given offset, with its always-sufficient fuel fixed. -/
def pointValuesFrom (data : List Nat) (offset : Nat) : List String :=
  pvLoopGo data (data.length + 1) offset

/-- Embeds the preamble-skipping for-loop of
X431Parser._extract_point_values: n times, read a 16-bit length at the
current offset and advance by it.  The reads are not bounds-guarded in the
source, so none models a raised struct.error. -/
def skipSections (data : List Nat) : Nat → Nat → Option Nat
  | 0, off => some off
  | n + 1, off =>
    (readU16 data off).bind fun len => skipSections data n (off + len)

/-- Embeds X431Parser._extract_point_values: read a 32-bit length at 0x0c,
advance by 4 plus that length, skip 8 length-prefixed sections, then run
the string-table loop. -/
def extract_point_values (data : List Nat) : Option (List String) :=
  (readU32 data 0x0c).bind fun var32 =>
    (skipSections data 8 (0x0c + (4 + var32))).map fun start =>
      pointValuesFrom data start

/-- The pass-1 resolution of a stored header index, as inlined in
X431Parser._extract_column_names: if the index is nonzero and index - 9 is
below the table length, subscript the table at index - 9 (a Python
subscription, so a negative biased index counts from the end of the table
or raises); otherwise the placeholder Unknown. -/
def headerResolve (pv : List String) (idx : Nat) : Option String :=
  if idx ≠ 0 ∧ ((idx : Int) - 9 < (pv.length : Int)) then pyGet pv ((idx : Int) - 9)
  else some "Unknown"

/-- The pass-2 suffix of a stored header index, as inlined in
X431Parser._extract_column_names: under the same guard, the resolved string
in parentheses with a leading space; otherwise nothing is appended. -/
def pass2Suffix (pv : List String) (idx : Nat) : Option String :=
  if idx ≠ 0 ∧ ((idx : Int) - 9 < (pv.length : Int)) then
    (pyGet pv ((idx : Int) - 9)).map (fun s => " (" ++ s ++ ")")
  else some ""

/-- Embeds X431Parser._extract_column_names: a first pass of column_count
slots starting at 0x138 yields the numbered primary names, a second pass
immediately after yields the unit suffixes, which are appended to the
corresponding names; the synthetic Num column is prepended. -/
def extract_column_names (data : List Nat) (cc : Nat) (pv : List String) :
    Option (List String) :=
  (chanLoop data
      (fun i idx => (headerResolve pv idx).map (fun s => Nat.repr (i + 1) ++ ". " ++ s))
      0x138 0 cc).bind fun names =>
    (chanLoop data (fun _ idx => pass2Suffix pv idx) (0x138 + 4 * cc) 0 cc).map
      fun suffixes => "Num" :: List.zipWith (fun a b => a ++ b) names suffixes

/-- The per-cell resolution of X431Parser._extract_data_rows for an
in-bounds read: subtract the bias 9 as a Python int, and resolve through
the table only when the result is within 0 up to the table length,
otherwise the placeholder 0. -/
def cellValue (data : List Nat) (pv : List String) (off : Nat) : String :=
  if 0 ≤ (u16at data off : Int) - 9 ∧ (u16at data off : Int) - 9 < (pv.length : Int) then
    pv.getD ((u16at data off : Int) - 9).toNat "0"
  else "0"

/-- Embeds the inner per-channel loop of X431Parser._extract_data_rows:
produce one cell per channel and the final offset.  When fewer than 2 bytes
remain the cell is 0 and the offset does not advance (the continue path of
the source); otherwise the cell is the resolved index and the offset
advances by 4. -/
def cellsLoop (data : List Nat) (pv : List String) : Nat → Nat → List String × Nat
  | off, 0 => ([], off)
  | off, n + 1 =>
    if data.length < off + 2 then
      let r := cellsLoop data pv off n
      ("0" :: r.1, r.2)
    else
      let r := cellsLoop data pv (off + 4) n
      (cellValue data pv off :: r.1, r.2)

/-- Embeds the outer per-row loop of X431Parser._extract_data_rows: each row
is the 1-based row ordinal followed by the cells of the row, and the offset
is threaded from row to row. -/
def rowsLoop (data : List Nat) (pv : List String) (cc : Nat) :
    Nat → Nat → Nat → List (List String)
  | _, _, 0 => []
  | off, rowNum, n + 1 =>
    let r := cellsLoop data pv off cc
    (Nat.repr (rowNum + 1) :: r.1) :: rowsLoop data pv cc r.2 (rowNum + 1) n

/-- Embeds X431Parser._extract_data_rows: read the 16-bit pointer at 0x11c,
read the 32-bit record count 8 bytes past the pointer value, and decode
(record count / 4) / column_count rows starting 8 bytes after the record
count field.  none models a raised struct.error on the unguarded reads or
the ZeroDivisionError when the channel count is zero. -/
def extract_data_rows (data : List Nat) (cc : Nat) (pv : List String) :
    Option (List (List String)) :=
  (readU16 data 0x11c).bind fun var16 =>
    (readU32 data (var16 + 8)).bind fun recordsCount =>
      if cc = 0 then none
      else some (rowsLoop data pv cc (var16 + 8 + 8) 0 (recordsCount / 4 / cc))

/-- Embeds X431Parser.parse: channel count, then string table, then headers,
then data rows. -/
def parse (data : List Nat) : Option (List String × List (List String)) :=
  (extract_channel_count data).bind fun cc =>
    (extract_point_values data).bind fun pv =>
      (extract_column_names data cc pv).bind fun names =>
        (extract_data_rows data cc pv).map fun rows => (names, rows)

end X431

/-- Whether a character is ASCII whitespace, as Python str.strip removes at
the ends of a string (the parameter names at hand are ASCII). -/
def pyIsSpace (c : Char) : Bool :=
  c = ' ' || c = '\t' || c = '\n' || c = '\r' || c = '\x0b' || c = '\x0c'

/-- Model of Python str.strip with no argument: drop ASCII whitespace from
both ends. -/
def pyStrip (s : String) : String :=
  ⟨((s.data.dropWhile pyIsSpace).reverse.dropWhile pyIsSpace).reverse⟩

/-- Whether the first list is an initial segment of the second. -/
def startsWithChars : List Char → List Char → Bool
  | [], _ => true
  | _ :: _, [] => false
  | p :: ps, c :: cs => p = c && startsWithChars ps cs

/-- Fueled model of Python str.replace on character lists (for a nonempty
pattern): replace every non-overlapping occurrence of pat, scanning left to
right.  Every step consumes at least one character and one unit of fuel, so
a fuel equal to the length of the scanned list is always sufficient. -/
def replGo (pat rep : List Char) : Nat → List Char → List Char
  | 0, _ => []
  | _ + 1, [] => []
  | fuel + 1, c :: cs =>
    if pat ≠ [] ∧ startsWithChars pat (c :: cs) = true then
      rep ++ replGo pat rep fuel (List.drop pat.length (c :: cs))
    else
      c :: replGo pat rep fuel cs

/-- Model of Python str.replace on strings, for a nonempty pattern. -/
def pyReplace (s pat rep : String) : String :=
  ⟨replGo pat.data rep.data s.data.length s.data⟩

namespace X431Clean

/-! Embedding of class X431CleanParser from src/x431_to_csv_clean.py.  The
channel count, string table and data-row extraction are character-for-
character the same code as in X431Parser and are embedded again here under
their own names; the header extraction differs. -/

/-- Embeds X431CleanParser._extract_channel_count. -/
def extract_channel_count (data : List Nat) : Option Nat :=
  (readU8 data 0x134).map (fun b => b / 4)

/-- Fueled form of the string-table while-loop of
X431CleanParser._extract_point_values (same code as in X431Parser). -/
def pvLoopGo (data : List Nat) : Nat → Nat → List String
  | 0, _ => []
  | fuel + 1, offset =>
    if offset + 2 > data.length then []
    else
      if u16at data offset < 3 ∨ offset + u16at data offset > data.length then []
      else
        strOfBytes ((data.drop (offset + 2)).take (u16at data offset - 3)) ::
          pvLoopGo data fuel (offset + u16at data offset)

/-- The string-table loop of X431CleanParser._extract_point_values run from
a given offset. -/
def pointValuesFrom (data : List Nat) (offset : Nat) : List String :=
  pvLoopGo data (data.length + 1) offset

/-- Embeds the preamble-skipping for-loop of
X431CleanParser._extract_point_values. -/
def skipSections (data : List Nat) : Nat → Nat → Option Nat
  | 0, off => some off
  | n + 1, off =>
    (readU16 data off).bind fun len => skipSections data n (off + len)

/-- Embeds X431CleanParser._extract_point_values. -/
def extract_point_values (data : List Nat) : Option (List String) :=
  (readU32 data 0x0c).bind fun var32 =>
    (skipSections data 8 (0x0c + (4 + var32))).map fun start =>
      pointValuesFrom data start

/-- The replacement table of X431CleanParser._clean_parameter_name, in the
order of the Python dict literal. -/
def replacements : List (String × String) :=
  [("B1S1", "(Bank1 Sensor1)"),
   ("B2S1", "(Bank2 Sensor1)"),
   ("A/F", "Air/Fuel"),
   ("A/C", "AC"),
   ("Cat OT MF F/C", "Catalyst Misfire"),
   ("#", "Count")]

/-- Embeds X431CleanParser._clean_parameter_name: the empty name becomes
Unknown, otherwise the name is stripped and each abbreviation of the
replacement table is expanded by substring replacement, in table order. -/
def clean_parameter_name (name : String) : String :=
  if name = "" then "Unknown"
  else replacements.foldl (fun acc p => pyReplace acc p.1 p.2) (pyStrip name)

/-- The pass-1 resolution of X431CleanParser._extract_column_names: the same
guarded table subscription as the verbose parser, but an unresolved index
yields the per-channel placeholder Channel_ followed by the 1-based channel
number. -/
def cleanResolveParam (pv : List String) (i idx : Nat) : Option String :=
  if idx ≠ 0 ∧ ((idx : Int) - 9 < (pv.length : Int)) then pyGet pv ((idx : Int) - 9)
  else some ("Channel_" ++ Nat.repr (i + 1))

/-- The pass-2 resolution of X431CleanParser._extract_column_names: an
unresolved index yields the empty string. -/
def cleanResolveUnit (pv : List String) (idx : Nat) : Option String :=
  if idx ≠ 0 ∧ ((idx : Int) - 9 < (pv.length : Int)) then pyGet pv ((idx : Int) - 9)
  else some ""

/-- The header-combination step of X431CleanParser._extract_column_names:
normalize both names, and append the unit in square brackets only when the
normalized unit is nonempty, differs from the normalized name, and is not
Unknown. -/
def combineClean (param unit : String) : String :=
  if clean_parameter_name unit ≠ "" ∧
     clean_parameter_name unit ≠ clean_parameter_name param ∧
     clean_parameter_name unit ≠ "Unknown" then
    clean_parameter_name param ++ " [" ++ clean_parameter_name unit ++ "]"
  else clean_parameter_name param

/-- Embeds X431CleanParser._extract_column_names: collect raw parameter
names and units in two passes from 0x138, then combine them pairwise; the
synthetic Row column is prepended. -/
def extract_column_names (data : List Nat) (cc : Nat) (pv : List String) :
    Option (List String) :=
  (chanLoop data (fun i idx => cleanResolveParam pv i idx) 0x138 0 cc).bind fun params =>
    (chanLoop data (fun _ idx => cleanResolveUnit pv idx) (0x138 + 4 * cc) 0 cc).map
      fun units => "Row" :: List.zipWith combineClean params units

/-- The per-cell resolution of X431CleanParser._extract_data_rows (same
code as in X431Parser). -/
def cellValue (data : List Nat) (pv : List String) (off : Nat) : String :=
  if 0 ≤ (u16at data off : Int) - 9 ∧ (u16at data off : Int) - 9 < (pv.length : Int) then
    pv.getD ((u16at data off : Int) - 9).toNat "0"
  else "0"

/-- The inner per-channel loop of X431CleanParser._extract_data_rows (same
code as in X431Parser). -/
def cellsLoop (data : List Nat) (pv : List String) : Nat → Nat → List String × Nat
  | off, 0 => ([], off)
  | off, n + 1 =>
    if data.length < off + 2 then
      let r := cellsLoop data pv off n
      ("0" :: r.1, r.2)
    else
      let r := cellsLoop data pv (off + 4) n
      (cellValue data pv off :: r.1, r.2)

/-- The outer per-row loop of X431CleanParser._extract_data_rows (same code
as in X431Parser). -/
def rowsLoop (data : List Nat) (pv : List String) (cc : Nat) :
    Nat → Nat → Nat → List (List String)
  | _, _, 0 => []
  | off, rowNum, n + 1 =>
    let r := cellsLoop data pv off cc
    (Nat.repr (rowNum + 1) :: r.1) :: rowsLoop data pv cc r.2 (rowNum + 1) n

/-- Embeds X431CleanParser._extract_data_rows (same code as in X431Parser). -/
def extract_data_rows (data : List Nat) (cc : Nat) (pv : List String) :
    Option (List (List String)) :=
  (readU16 data 0x11c).bind fun var16 =>
    (readU32 data (var16 + 8)).bind fun recordsCount =>
      if cc = 0 then none
      else some (rowsLoop data pv cc (var16 + 8 + 8) 0 (recordsCount / 4 / cc))

/-- Embeds X431CleanParser.parse. -/
def parse (data : List Nat) : Option (List String × List (List String)) :=
  (extract_channel_count data).bind fun cc =>
    (extract_point_values data).bind fun pv =>
      (extract_column_names data cc pv).bind fun names =>
        (extract_data_rows data cc pv).map fun rows => (names, rows)

end X431Clean

/-- A well-formed 352-byte example file: preamble length 0 at 0x0c, eight
2-byte sections, a string table with entries Speed, RPM, km/h, rpm ending in
a sentinel, channel byte 8 (2 channels) at 0x134, pass-1 indices 9 and 10
and pass-2 indices 11 and 12 from 0x138, data pointer 0x140 at 0x11c, record
count 16 at 0x148, and two rows of cell indices from 0x150. -/
def testData : List Nat :=
  List.replicate 12 0 ++ [0, 0, 0, 0] ++
    [2, 0, 2, 0, 2, 0, 2, 0, 2, 0, 2, 0, 2, 0, 2, 0] ++
    [8, 0, 83, 112, 101, 101, 100, 0] ++
    [6, 0, 82, 80, 77, 0] ++
    [7, 0, 107, 109, 47, 104, 0] ++
    [6, 0, 114, 112, 109, 0] ++
    [0, 0] ++
    List.replicate 223 0 ++
    [0x40, 0x01] ++
    List.replicate 22 0 ++
    [8, 0, 0, 0] ++
    [9, 0, 0, 0, 10, 0, 0, 0, 11, 0, 0, 0, 12, 0, 0, 0] ++
    [16, 0, 0, 0, 0, 0, 0, 0] ++
    [9, 0, 0, 0, 12, 0, 0, 0, 10, 0, 0, 0, 11, 0, 0, 0]

/-- The string table of testData. -/
def testPV : List String := ["Speed", "RPM", "km/h", "rpm"]

/-- A 320-byte buffer whose pass-1 header slot at 0x138 stores index 5, used
with a two-entry string table: the biased index 5 - 9 = -4 passes the guard
of the header extractor and subscripts the table at the negative Python
index -4, which raises IndexError for a table of length 2. -/
def negIdxData : List Nat :=
  List.replicate 0x138 0 ++ [5, 0] ++ List.replicate 6 0

/-- A 286-byte buffer for locating the record count: the 16-bit value at
0x11c is 32, the 32-bit value at 32 + 8 = 40 is 5, and the 32-bit value at
(32 + 8) + 8 = 48 is 99. -/
def recLocData : List Nat :=
  List.replicate 40 0 ++ [5, 0, 0, 0] ++ [0, 0, 0, 0] ++ [99, 0, 0, 0] ++
    List.replicate 232 0 ++ [32, 0]

/-- A 39-byte buffer whose string table holds a single entry of length 5
with the payload bytes 0xFF 0x41, an invalid UTF-8 sequence followed by the
letter A. -/
def badUtf8Data : List Nat :=
  List.replicate 12 0 ++ [0, 0, 0, 0] ++
    [2, 0, 2, 0, 2, 0, 2, 0, 2, 0, 2, 0, 2, 0, 2, 0] ++
    [5, 0, 255, 65, 0] ++ [0, 0]

/-- A 320-byte all-zero buffer: both header slots of its single channel
store index 0, so neither resolves. -/
def zeroIdxData : List Nat := List.replicate 0x140 0

section Helpers

/-- The string-table loop yields nothing when fewer than 2 bytes remain,
whatever the fuel. -/
lemma pvLoopGo_oob (data : List Nat) (f off : Nat) (h : data.length < off + 2) :
    X431.pvLoopGo data f off = [] := by
  cases f with
  | zero => rfl
  | succ n => simp [X431.pvLoopGo, h]

/-- The fuel of the string-table loop is irrelevant as soon as it exceeds
the number of bytes from the offset to the end of the buffer: every
iteration advances the offset by at least 3 while consuming one unit of
fuel. -/
lemma pvLoopGo_congr (data : List Nat) :
    ∀ f1 f2 off, data.length < f1 + off → data.length < f2 + off →
      X431.pvLoopGo data f1 off = X431.pvLoopGo data f2 off := by
  intro f1
  induction f1 with
  | zero =>
    intro f2 off h1 h2
    rw [pvLoopGo_oob data 0 off (by omega), pvLoopGo_oob data f2 off (by omega)]
  | succ n ih =>
    intro f2 off h1 h2
    by_cases hc1 : data.length < off + 2
    · rw [pvLoopGo_oob data _ off hc1, pvLoopGo_oob data f2 off hc1]
    · cases f2 with
      | zero => omega
      | succ m =>
        simp only [X431.pvLoopGo]
        split_ifs with hA hB
        · rfl
        · rfl
        · have hu : 3 ≤ u16at data off := by omega
          have := ih m (off + u16at data off) (by omega) (by omega)
          rw [this]

/-- Unfolding step of the string-table scan: a well-formed entry prepends
its decoded payload and the scan resumes past the entry. -/
lemma pointValuesFrom_cons (data : List Nat) (off : Nat)
    (h1 : off + 2 ≤ data.length) (h2 : 3 ≤ u16at data off)
    (h3 : off + u16at data off ≤ data.length) :
    X431.pointValuesFrom data off =
      strOfBytes ((data.drop (off + 2)).take (u16at data off - 3)) ::
        X431.pointValuesFrom data (off + u16at data off) := by
  have step : X431.pvLoopGo data (data.length + 1) off =
      strOfBytes ((data.drop (off + 2)).take (u16at data off - 3)) ::
        X431.pvLoopGo data data.length (off + u16at data off) := by
    simp only [X431.pvLoopGo]
    rw [if_neg (by omega), if_neg (by omega)]
  unfold X431.pointValuesFrom
  rw [step]
  have := pvLoopGo_congr data data.length (data.length + 1) (off + u16at data off)
    (by omega) (by omega)
  rw [this]

/-- The string-table scan stops at a sentinel length below 3. -/
lemma pointValuesFrom_sentinel (data : List Nat) (off : Nat)
    (h2 : u16at data off < 3) :
    X431.pointValuesFrom data off = [] := by
  by_cases h1 : data.length < off + 2
  · exact pvLoopGo_oob data _ off h1
  · unfold X431.pointValuesFrom
    simp only [X431.pvLoopGo]
    rw [if_neg (by omega), if_pos (Or.inl h2)]

/-- The string-table scan stops when the buffer holds fewer bytes than the
entry the length prefix announces. -/
lemma pointValuesFrom_short (data : List Nat) (off : Nat)
    (h3 : data.length < off + u16at data off) :
    X431.pointValuesFrom data off = [] := by
  by_cases h1 : data.length < off + 2
  · exact pvLoopGo_oob data _ off h1
  · unfold X431.pointValuesFrom
    simp only [X431.pvLoopGo]
    rw [if_neg (by omega), if_pos (Or.inr (by omega))]

/-- A successful 16-bit read names the little-endian value at an in-bounds
offset. -/
lemma readU16_some {data : List Nat} {off v : Nat} (h : readU16 data off = some v) :
    v = u16at data off ∧ off + 2 ≤ data.length := by
  unfold readU16 at h
  by_cases hb : off + 2 ≤ data.length
  · rw [if_pos hb] at h
    exact ⟨(Option.some.injEq _ _ ▸ h).symm, hb⟩
  · rw [if_neg hb] at h
    cases h

/-- A successful Python subscription returns an element of the list. -/
lemma pyGet_mem {l : List String} {i : Int} {x : String} (h : pyGet l i = some x) :
    x ∈ l := by
  unfold pyGet at h
  by_cases hc : 0 ≤ (if i < 0 then i + l.length else i) ∧
      (if i < 0 then i + l.length else i) < (l.length : Int)
  · rw [if_pos hc] at h
    exact List.get?_mem h
  · rw [if_neg hc] at h
    cases h

/-- Characterization of a successful run of the per-channel loop: it has
one slot per channel, and the j-th slot holds the resolution of the 16-bit
index read 4 j bytes past the base offset. -/
lemma chanLoop_get (data : List Nat) (f : Nat → Nat → Option String) :
    ∀ n off i l, chanLoop data f off i n = some l →
      l.length = n ∧
      ∀ j, j < n → ∃ idx s, readU16 data (off + 4 * j) = some idx ∧
        f (i + j) idx = some s ∧ l.get? j = some s := by
  intro n
  induction n with
  | zero =>
    intro off i l h
    simp only [chanLoop, Option.some.injEq] at h
    subst h
    exact ⟨rfl, fun j hj => absurd hj (by omega)⟩
  | succ n ih =>
    intro off i l h
    simp only [chanLoop, Option.bind_eq_some, Option.map_eq_some'] at h
    obtain ⟨idx, h16, s, hf, rest, hrec, rfl⟩ := h
    obtain ⟨hlen, hget⟩ := ih (off + 4) (i + 1) rest hrec
    refine ⟨by simp [hlen], ?_⟩
    intro j hj
    cases j with
    | zero =>
      exact ⟨idx, s, by simpa using h16, by simpa using hf, rfl⟩
    | succ j =>
      obtain ⟨idx2, s2, ha, hb, hc⟩ := hget j (by omega)
      refine ⟨idx2, s2, ?_, ?_, by simpa using hc⟩
      · have e : off + 4 + 4 * j = off + 4 * (j + 1) := by ring
        rwa [e] at ha
      · have e : i + 1 + j = i + (j + 1) := by ring
        rwa [e] at hb

/-- Pointwise description of zipWith through get?. -/
lemma zipWith_get? {α β γ : Type} (f : α → β → γ) :
    ∀ (l1 : List α) (l2 : List β) (j : Nat) (x : α) (y : β),
      l1.get? j = some x → l2.get? j = some y →
      (List.zipWith f l1 l2).get? j = some (f x y) := by
  intro l1
  induction l1 with
  | nil => intro l2 j x y h1 h2; cases h1
  | cons a l1 ih =>
    intro l2 j x y h1 h2
    cases l2 with
    | nil => cases h2
    | cons b l2 =>
      cases j with
      | zero =>
        simp only [List.get?] at h1 h2
        cases h1; cases h2
        rfl
      | succ j =>
        simpa using ih l2 j x y (by simpa using h1) (by simpa using h2)

end Helpers

section RowHelpers

/-- The inner data-row loop produces exactly one cell per channel. -/
lemma cellsLoop_length (data : List Nat) (pv : List String) :
    ∀ n off, ((X431.cellsLoop data pv off n).1).length = n := by
  intro n
  induction n with
  | zero => intro off; rfl
  | succ n ih =>
    intro off
    simp only [X431.cellsLoop]
    split_ifs
    · simpa using ih off
    · simpa using ih (off + 4)

/-- Once fewer than 2 bytes remain at the cursor, every remaining cell of
the current row is the placeholder 0 and the cursor does not move. -/
lemma cellsLoop_exhausted (data : List Nat) (pv : List String) :
    ∀ n off, data.length < off + 2 →
      X431.cellsLoop data pv off n = (List.replicate n "0", off) := by
  intro n
  induction n with
  | zero => intro off _; rfl
  | succ n ih =>
    intro off h
    simp only [X431.cellsLoop, if_pos h, ih off h, List.replicate_succ]

/-- The outer data-row loop emits exactly the requested number of rows. -/
lemma rowsLoop_length (data : List Nat) (pv : List String) (cc : Nat) :
    ∀ n off r, (X431.rowsLoop data pv cc off r n).length = n := by
  intro n
  induction n with
  | zero => intro off r; rfl
  | succ n ih =>
    intro off r
    simp only [X431.rowsLoop, List.length_cons, ih]

/-- Every emitted row consists of the ordinal cell plus one cell per
channel. -/
lemma rowsLoop_mem (data : List Nat) (pv : List String) (cc : Nat) :
    ∀ n off r row, row ∈ X431.rowsLoop data pv cc off r n → row.length = cc + 1 := by
  intro n
  induction n with
  | zero => intro off r row h; cases h
  | succ n ih =>
    intro off r row h
    simp only [X431.rowsLoop, List.mem_cons] at h
    cases h with
    | inl h =>
      subst h
      simp [cellsLoop_length]
    | inr h => exact ih _ _ row h

end RowHelpers

section HeaderHelpers

/-- For a table that does not contain the literal string Unknown, the pass-2
suffix is nonempty exactly when the stored index resolves to a non-Unknown
value. -/
lemma pass2Suffix_char {pv : List String} {idx : Nat} {t : String}
    (hpv : "Unknown" ∉ pv) (h : X431.pass2Suffix pv idx = some t) :
    ∃ s, X431.headerResolve pv idx = some s ∧
      t = if s = "Unknown" then "" else " (" ++ s ++ ")" := by
  unfold X431.pass2Suffix at h
  unfold X431.headerResolve
  by_cases hg : idx ≠ 0 ∧ ((idx : Int) - 9 < (pv.length : Int))
  · rw [if_pos hg] at h ⊢
    simp only [Option.map_eq_some'] at h
    obtain ⟨s, hs, rfl⟩ := h
    have hne : s ≠ "Unknown" := fun he => hpv (he ▸ pyGet_mem hs)
    exact ⟨s, hs, by rw [if_neg hne]⟩
  · rw [if_neg hg] at h ⊢
    cases h
    exact ⟨"Unknown", rfl, by rw [if_pos rfl]⟩

end HeaderHelpers

section CleanSameDecoder

/-- The string-table loops of the two parsers agree at every fuel and
offset: the source code of the loop is identical in both files. -/
lemma pvLoopGo_same (data : List Nat) :
    ∀ f off, X431Clean.pvLoopGo data f off = X431.pvLoopGo data f off := by
  intro f
  induction f with
  | zero => intro off; rfl
  | succ n ih =>
    intro off
    simp only [X431.pvLoopGo, X431Clean.pvLoopGo]
    split_ifs
    · rfl
    · rfl
    · rw [ih]

/-- The preamble-skipping loops of the two parsers agree. -/
lemma skipSections_same (data : List Nat) :
    ∀ n off, X431Clean.skipSections data n off = X431.skipSections data n off := by
  intro n
  induction n with
  | zero => intro off; rfl
  | succ n ih =>
    intro off
    simp only [X431.skipSections, X431Clean.skipSections]
    cases readU16 data off with
    | none => rfl
    | some len => simp [ih]

/-- The string-table extraction of the two parsers agrees on every buffer. -/
lemma extract_point_values_same (data : List Nat) :
    X431Clean.extract_point_values data = X431.extract_point_values data := by
  simp only [X431.extract_point_values, X431Clean.extract_point_values,
    skipSections_same]
  cases readU32 data 0x0c with
  | none => rfl
  | some v =>
    simp [X431.pointValuesFrom, X431Clean.pointValuesFrom, pvLoopGo_same]

/-- The per-cell resolutions of the two parsers agree. -/
lemma cellValue_same (data : List Nat) (pv : List String) (off : Nat) :
    X431Clean.cellValue data pv off = X431.cellValue data pv off := rfl

/-- The inner data-row loops of the two parsers agree. -/
lemma cellsLoop_same (data : List Nat) (pv : List String) :
    ∀ n off, X431Clean.cellsLoop data pv off n = X431.cellsLoop data pv off n := by
  intro n
  induction n with
  | zero => intro off; rfl
  | succ n ih =>
    intro off
    simp only [X431.cellsLoop, X431Clean.cellsLoop, cellValue_same, ih]

/-- The outer data-row loops of the two parsers agree. -/
lemma rowsLoop_same (data : List Nat) (pv : List String) (cc : Nat) :
    ∀ n off r, X431Clean.rowsLoop data pv cc off r n = X431.rowsLoop data pv cc off r n := by
  intro n
  induction n with
  | zero => intro off r; rfl
  | succ n ih =>
    intro off r
    simp only [X431.rowsLoop, X431Clean.rowsLoop, cellsLoop_same, ih]

/-- The data-row extraction of the two parsers agrees on every buffer,
channel count and table. -/
lemma extract_data_rows_same (data : List Nat) (cc : Nat) (pv : List String) :
    X431Clean.extract_data_rows data cc pv = X431.extract_data_rows data cc pv := by
  simp only [X431.extract_data_rows, X431Clean.extract_data_rows]
  cases readU16 data 0x11c with
  | none => rfl
  | some v16 =>
    simp only [Option.some_bind]
    cases readU32 data (v16 + 8) with
    | none => rfl
    | some rc => simp [rowsLoop_same]

end CleanSameDecoder

set_option maxRecDepth 10000

/-- Unfolded form of the data-row extractor when its two header reads are in
bounds and the channel count is positive. -/
lemma extract_data_rows_unfold (data : List Nat) (cc : Nat) (pv : List String)
    (hcc : 0 < cc) (h1 : 0x11c + 2 ≤ data.length)
    (h2 : u16at data 0x11c + 8 + 4 ≤ data.length) :
    X431.extract_data_rows data cc pv =
      some (X431.rowsLoop data pv cc (u16at data 0x11c + 8 + 8) 0
        (u32at data (u16at data 0x11c + 8) / 4 / cc)) := by
  unfold X431.extract_data_rows readU16 readU32
  rw [if_pos h1]
  simp only [Option.some_bind]
  rw [if_pos h2]
  simp only [Option.some_bind]
  rw [if_neg (by omega)]

/-- C1: false of the header passes as written.  In a buffer whose pass-1
header slot stores index 5 and with a point-value table of length 2, the
biased index 5 - 9 = -4 passes the header guard, Python subscripts the table
at -4, and since the table has fewer than 4 entries this raises IndexError
(modelled as none) instead of yielding the placeholder Unknown.  The
data-row decoder, by contrast, checks 0 <= index and yields the placeholder
0 for the very same slot. -/
theorem c1_header_negative_bias_raises :
    X431.extract_column_names negIdxData 1 ["a", "b"] = none ∧
    X431.cellsLoop negIdxData ["a", "b"] 0x138 1 = (["0"], 0x13c) := by decide

/-- C2: counterexample to the claimed record-count location.  In recLocData
the 16-bit value at 0x11c is 32, the 32-bit value at 32 + 8 = 40 is 5 and
the one at (32 + 8) + 8 = 48 is 99.  The decoder emits 5 / 4 = 1 row, i.e.
it reads the record count at stored value + 8, not at pointer + 8 with
pointer equal to stored value + 8 (which would give 99 / 4 = 24 rows). -/
theorem c2_counterexample :
    (X431.extract_data_rows recLocData 1 []).map List.length =
      some (u32at recLocData (u16at recLocData 0x11c + 8) / 4 / 1) ∧
    u32at recLocData (u16at recLocData 0x11c + 8) = 5 ∧
    u32at recLocData (u16at recLocData 0x11c + 8 + 8) = 99 ∧
    ¬ (X431.extract_data_rows recLocData 1 []).map List.length =
        some (u32at recLocData (u16at recLocData 0x11c + 8 + 8) / 4 / 1) := by
  decide

/-- C2 (amended): the Data Record Decoder reads a 16-bit value at the fixed
header offset 0x11c, forms the data-section pointer by adding 8 to that
value, reads the 32-bit record count at the pointer itself, and begins
decoding cell indices 8 bytes past the record-count field. -/
theorem c2_record_count_location (data : List Nat) (cc : Nat) (pv : List String)
    (hcc : 0 < cc) (h1 : 0x11c + 2 ≤ data.length)
    (h2 : u16at data 0x11c + 8 + 4 ≤ data.length) :
    X431.extract_data_rows data cc pv =
      some (X431.rowsLoop data pv cc (u16at data 0x11c + 8 + 8) 0
        (u32at data (u16at data 0x11c + 8) / 4 / cc)) :=
  extract_data_rows_unfold data cc pv hcc h1 h2

/-- Witness for c2_record_count_location at the example buffer. -/
theorem c2_record_count_location_witness :
    X431.extract_data_rows testData 2 testPV =
      some (X431.rowsLoop testData testPV 2 (u16at testData 0x11c + 8 + 8) 0
        (u32at testData (u16at testData 0x11c + 8) / 4 / 2)) :=
  c2_record_count_location testData 2 testPV (by decide) (by decide) (by decide)

/-- C3: counterexample to replacement-character substitution.  The string
table of badUtf8Data holds one entry whose payload bytes 0xFF 0x41 are not
valid UTF-8.  The builder appends the string A: the invalid byte is
discarded (errors=ignore), whereas substituting replacement characters
would have produced the replacement character followed by A. -/
theorem c3_counterexample :
    X431.extract_point_values badUtf8Data = some [strOfBytes [255, 65]] ∧
    strOfBytes [255, 65] = "A" ∧
    utf8Decode true [255, 65] = [replacementChar, 'A'] ∧
    strOfBytes [255, 65] ≠ String.mk (utf8Decode true [255, 65]) := by decide

/-- C3 (amended): for every string-table entry, also one whose payload bytes
are not valid UTF-8, the builder decodes the payload tolerantly by
discarding invalid byte sequences (ignore-mode decoding) rather than
failing, appends the resulting string to the table, and continues past the
entry. -/
theorem c3_tolerant_ignore_decode (data : List Nat) (off : Nat)
    (h1 : off + 2 ≤ data.length) (h2 : 3 ≤ u16at data off)
    (h3 : off + u16at data off ≤ data.length) :
    X431.pointValuesFrom data off =
      String.mk (utf8Decode false ((data.drop (off + 2)).take (u16at data off - 3))) ::
        X431.pointValuesFrom data (off + u16at data off) :=
  pointValuesFrom_cons data off h1 h2 h3

/-- Witness for c3_tolerant_ignore_decode at the invalid-UTF-8 entry of
badUtf8Data. -/
theorem c3_tolerant_ignore_decode_witness :
    X431.pointValuesFrom badUtf8Data 0x20 =
      String.mk (utf8Decode false
          ((badUtf8Data.drop (0x20 + 2)).take (u16at badUtf8Data 0x20 - 3))) ::
        X431.pointValuesFrom badUtf8Data (0x20 + u16at badUtf8Data 0x20) :=
  c3_tolerant_ignore_decode badUtf8Data 0x20 (by decide) (by decide) (by decide)

/-- C4: the String Table Builder reads a 32-bit length L0 at the fixed
preamble offset 0x0c and continues at 0x0c + (4 + L0); it then skips
exactly 8 sections, each advancing by its own prefix-inclusive 16-bit
length; the scan stops when fewer than 2 bytes remain, when the 16-bit
length L is below 3, or when fewer than L - 2 bytes remain past the prefix
(all returning the table built so far, not an error), and otherwise appends
the decoded (L - 3)-byte payload and advances by L - 2 bytes past the
prefix. -/
theorem c4_string_table_scan (data : List Nat) :
    (∀ L0, readU32 data 0x0c = some L0 →
      X431.extract_point_values data =
        (X431.skipSections data 8 (0x0c + (4 + L0))).map (X431.pointValuesFrom data)) ∧
    (∀ off n L, readU16 data off = some L →
      X431.skipSections data (n + 1) off = X431.skipSections data n (off + L)) ∧
    (∀ off, data.length < off + 2 → X431.pointValuesFrom data off = []) ∧
    (∀ off, off + 2 ≤ data.length → u16at data off < 3 →
      X431.pointValuesFrom data off = []) ∧
    (∀ off, off + 2 ≤ data.length → 3 ≤ u16at data off →
      data.length - (off + 2) < u16at data off - 2 →
      X431.pointValuesFrom data off = []) ∧
    (∀ off, off + 2 ≤ data.length → 3 ≤ u16at data off →
      u16at data off - 2 ≤ data.length - (off + 2) →
      X431.pointValuesFrom data off =
        strOfBytes ((data.drop (off + 2)).take (u16at data off - 3)) ::
          X431.pointValuesFrom data (off + 2 + (u16at data off - 2))) := by
  refine ⟨?_, ?_, ?_, ?_, ?_, ?_⟩
  · intro L0 h
    unfold X431.extract_point_values
    rw [h]
    simp only [Option.some_bind]
  · intro off n L h
    simp only [X431.skipSections, h, Option.some_bind]
  · intro off h
    exact pvLoopGo_oob data _ off h
  · intro off _ h2
    exact pointValuesFrom_sentinel data off h2
  · intro off h1 h2 h3
    exact pointValuesFrom_short data off (by omega)
  · intro off h1 h2 h3
    have e : off + 2 + (u16at data off - 2) = off + u16at data off := by omega
    rw [e]
    exact pointValuesFrom_cons data off h1 h2 (by omega)

/-- Witness for c4_string_table_scan at the example buffer: its preamble,
the sentinel entry at 0x3b, and the well-formed entry at 0x20. -/
theorem c4_string_table_scan_witness :
    X431.extract_point_values testData =
      (X431.skipSections testData 8 (0x0c + (4 + 0))).map (X431.pointValuesFrom testData) ∧
    X431.pointValuesFrom testData 0x3b = [] ∧
    X431.pointValuesFrom testData 0x20 =
      strOfBytes ((testData.drop (0x20 + 2)).take (u16at testData 0x20 - 3)) ::
        X431.pointValuesFrom testData (0x20 + 2 + (u16at testData 0x20 - 2)) :=
  ⟨(c4_string_table_scan testData).1 0 (by decide),
   (c4_string_table_scan testData).2.2.2.1 0x3b (by decide) (by decide),
   (c4_string_table_scan testData).2.2.2.2.2 0x20 (by decide) (by decide) (by decide)⟩

/-- C7: for a positive channel count (and in-bounds header reads), the
decoder emits exactly (record count / 4) / channel count rows, in integer
division: partial trailing rows are truncated, never emitted, and this is
not an error. -/
theorem c7_row_count (data : List Nat) (cc : Nat) (pv : List String)
    (hcc : 0 < cc) (h1 : 0x11c + 2 ≤ data.length)
    (h2 : u16at data 0x11c + 8 + 4 ≤ data.length) :
    ∃ rows, X431.extract_data_rows data cc pv = some rows ∧
      rows.length = u32at data (u16at data 0x11c + 8) / 4 / cc := by
  rw [extract_data_rows_unfold data cc pv hcc h1 h2]
  exact ⟨_, rfl, rowsLoop_length data pv cc _ _ _⟩

/-- Witness for c7_row_count at the example buffer (record count 16, two
channels, hence 2 rows). -/
theorem c7_row_count_witness :
    ∃ rows, X431.extract_data_rows testData 2 testPV = some rows ∧
      rows.length = u32at testData (u16at testData 0x11c + 8) / 4 / 2 :=
  c7_row_count testData 2 testPV (by decide) (by decide) (by decide)

/-- C9: when fewer than 2 bytes remain at the cursor, every remaining cell
of the current row is filled with the literal placeholder 0, the row is
still emitted (with its 1-based ordinal), and decoding continues with the
next row instead of raising or aborting. -/
theorem c9_truncated_row (data : List Nat) (pv : List String)
    (cc off rowNum n k : Nat) (h : data.length < off + 2) :
    X431.cellsLoop data pv off k = (List.replicate k "0", off) ∧
    X431.rowsLoop data pv cc off rowNum (n + 1) =
      (Nat.repr (rowNum + 1) :: List.replicate cc "0") ::
        X431.rowsLoop data pv cc off (rowNum + 1) n := by
  refine ⟨cellsLoop_exhausted data pv k off h, ?_⟩
  simp only [X431.rowsLoop, cellsLoop_exhausted data pv cc off h]

/-- Witness for c9_truncated_row: reading the example buffer from offset
400, past its 352 bytes. -/
theorem c9_truncated_row_witness :
    X431.cellsLoop testData testPV 400 2 = (List.replicate 2 "0", 400) ∧
    X431.rowsLoop testData testPV 2 400 0 (0 + 1) =
      (Nat.repr (0 + 1) :: List.replicate 2 "0") ::
        X431.rowsLoop testData testPV 2 400 (0 + 1) 0 :=
  c9_truncated_row testData testPV 2 400 0 0 2 (by decide)

/-- C10: the verbose and the clean parser compute the same channel count,
the same point-value string table and the same data-row matrix on every
input; the two implementations differ only in header formatting. -/
theorem c10_parsers_share_decoder (data : List Nat) (cc : Nat) (pv : List String) :
    X431Clean.extract_channel_count data = X431.extract_channel_count data ∧
    X431Clean.extract_point_values data = X431.extract_point_values data ∧
    X431Clean.extract_data_rows data cc pv = X431.extract_data_rows data cc pv :=
  ⟨rfl, extract_point_values_same data, extract_data_rows_same data cc pv⟩

/-- C5: under the verbose policy, the header of channel i (1-based label
i + 1 at position i + 1) is the numbered primary name with the secondary in
parentheses appended exactly when the secondary resolves to a non-Unknown
value; the hypothesis that the table does not contain the literal string
Unknown makes the placeholder recognizable. -/
theorem c5_verbose_header_format (data : List Nat) (cc : Nat) (pv : List String)
    (hs : List String) (hpv : "Unknown" ∉ pv)
    (h : X431.extract_column_names data cc pv = some hs) :
    ∀ i, i < cc → ∃ p s,
      X431.headerResolve pv (u16at data (0x138 + 4 * i)) = some p ∧
      X431.headerResolve pv (u16at data (0x138 + 4 * cc + 4 * i)) = some s ∧
      hs.get? (i + 1) = some ((Nat.repr (i + 1) ++ ". " ++ p) ++
        (if s = "Unknown" then "" else " (" ++ s ++ ")")) := by
  intro i hi
  unfold X431.extract_column_names at h
  simp only [Option.bind_eq_some, Option.map_eq_some'] at h
  obtain ⟨names, hnames, suffixes, hsufs, rfl⟩ := h
  obtain ⟨-, hnget⟩ := chanLoop_get data _ cc 0x138 0 names hnames
  obtain ⟨-, hsget⟩ := chanLoop_get data _ cc (0x138 + 4 * cc) 0 suffixes hsufs
  obtain ⟨idx1, s1, hr1, hf1, hg1⟩ := hnget i hi
  obtain ⟨idx2, s2, hr2, hf2, hg2⟩ := hsget i hi
  simp only [Nat.zero_add, Option.map_eq_some'] at hf1 hf2
  obtain ⟨p, hp, rfl⟩ := hf1
  obtain ⟨s, hsres, hform⟩ := pass2Suffix_char hpv hf2
  obtain ⟨hv1, -⟩ := readU16_some hr1
  obtain ⟨hv2, -⟩ := readU16_some hr2
  subst hv1
  subst hv2
  subst hform
  refine ⟨p, s, hp, hsres, ?_⟩
  have hz := zipWith_get? (fun a b => a ++ b) names suffixes i _ _ hg1 hg2
  simpa using hz

/-- Witness for c5_verbose_header_format: the end-to-end verbose example of
the specification (channels Speed and RPM with units km/h and rpm). -/
theorem c5_verbose_header_format_witness :
    X431.extract_column_names testData 2 testPV =
      some ["Num", "1. Speed (km/h)", "2. RPM (rpm)"] ∧
    (∃ p s,
      X431.headerResolve testPV (u16at testData (0x138 + 4 * 0)) = some p ∧
      X431.headerResolve testPV (u16at testData (0x138 + 4 * 2 + 4 * 0)) = some s ∧
      (["Num", "1. Speed (km/h)", "2. RPM (rpm)"] : List String).get? (0 + 1) =
        some ((Nat.repr (0 + 1) ++ ". " ++ p) ++
          (if s = "Unknown" then "" else " (" ++ s ++ ")"))) :=
  ⟨by decide,
   c5_verbose_header_format testData 2 testPV ["Num", "1. Speed (km/h)", "2. RPM (rpm)"]
     (by decide) (by decide) 0 (by decide)⟩

/-- C6: counterexample to the placeholder for an invalid primary index.  In
an all-zero buffer the stored primary index of channel 1 is 0, an invalid
index, and the emitted header is Channel_1, not Unknown. -/
theorem c6_counterexample :
    X431Clean.extract_column_names zeroIdxData 1 ["x"] = some ["Row", "Channel_1"] ∧
    ("Channel_1" : String) ≠ "Unknown" := by decide

/-- C6 (amended): under the clean policy both resolved strings are
normalized by the fixed substring-replacement mapping (for example the
bank/sensor code B1S1 expands to its spelled-out form), and the header is
primary [secondary] exactly when the normalized secondary is nonempty,
differs from the normalized primary, and is not Unknown; otherwise the
normalized primary alone.  An invalid primary index, however, resolves to
the per-channel placeholder Channel_ followed by the 1-based channel
number, not to Unknown (an invalid secondary resolves to the empty string,
which normalizes to Unknown and is therefore never appended). -/
theorem c6_clean_header_format (data : List Nat) (cc : Nat) (pv : List String)
    (hs : List String)
    (h : X431Clean.extract_column_names data cc pv = some hs) :
    hs.get? 0 = some "Row" ∧
    X431Clean.clean_parameter_name "B1S1" = "(Bank1 Sensor1)" ∧
    ∀ i, i < cc → ∃ p u,
      X431Clean.cleanResolveParam pv i (u16at data (0x138 + 4 * i)) = some p ∧
      X431Clean.cleanResolveUnit pv (u16at data (0x138 + 4 * cc + 4 * i)) = some u ∧
      hs.get? (i + 1) = some (
        if X431Clean.clean_parameter_name u ≠ "" ∧
           X431Clean.clean_parameter_name u ≠ X431Clean.clean_parameter_name p ∧
           X431Clean.clean_parameter_name u ≠ "Unknown" then
          X431Clean.clean_parameter_name p ++ " [" ++
            X431Clean.clean_parameter_name u ++ "]"
        else X431Clean.clean_parameter_name p) := by
  unfold X431Clean.extract_column_names at h
  simp only [Option.bind_eq_some, Option.map_eq_some'] at h
  obtain ⟨params, hpar, units, hun, rfl⟩ := h
  refine ⟨rfl, by decide, ?_⟩
  intro i hi
  obtain ⟨-, hpget⟩ := chanLoop_get data _ cc 0x138 0 params hpar
  obtain ⟨-, huget⟩ := chanLoop_get data _ cc (0x138 + 4 * cc) 0 units hun
  obtain ⟨idx1, p, hr1, hf1, hg1⟩ := hpget i hi
  obtain ⟨idx2, u, hr2, hf2, hg2⟩ := huget i hi
  simp only [Nat.zero_add] at hf1 hf2
  obtain ⟨hv1, -⟩ := readU16_some hr1
  obtain ⟨hv2, -⟩ := readU16_some hr2
  subst hv1
  subst hv2
  refine ⟨p, u, hf1, hf2, ?_⟩
  have hz := zipWith_get? X431Clean.combineClean params units i _ _ hg1 hg2
  simp only [List.get?_cons_succ]
  rw [hz]
  rfl

/-- Witness for c6_clean_header_format at the example buffer. -/
theorem c6_clean_header_format_witness :
    X431Clean.extract_column_names testData 2 testPV =
      some ["Row", "Speed [km/h]", "RPM [rpm]"] ∧
    (["Row", "Speed [km/h]", "RPM [rpm]"] : List String).get? 0 = some "Row" :=
  ⟨by decide,
   (c6_clean_header_format testData 2 testPV ["Row", "Speed [km/h]", "RPM [rpm]"]
     (by decide)).1⟩

/-- C8: a successful parse yields channel count + 1 headers (the synthetic
leading ordinal column plus one header per channel) and every emitted row
has exactly channel count + 1 cells (the 1-based row ordinal plus one cell
per channel). -/
theorem c8_output_shape (data : List Nat) (cc : Nat) (hs : List String)
    (rows : List (List String))
    (hcc : X431.extract_channel_count data = some cc)
    (h : X431.parse data = some (hs, rows)) :
    hs.length = cc + 1 ∧ ∀ r ∈ rows, r.length = cc + 1 := by
  unfold X431.parse at h
  rw [hcc] at h
  simp only [Option.some_bind, Option.bind_eq_some, Option.map_eq_some'] at h
  obtain ⟨pv, hpv, names, hnames, rows2, hrows, heq⟩ := h
  rw [Prod.mk.injEq] at heq
  obtain ⟨he1, he2⟩ := heq
  subst he1
  subst he2
  constructor
  · unfold X431.extract_column_names at hnames
    simp only [Option.bind_eq_some, Option.map_eq_some'] at hnames
    obtain ⟨nm, hnm, sufs, hsufs2, rfl⟩ := hnames
    obtain ⟨hnl, -⟩ := chanLoop_get data _ cc 0x138 0 nm hnm
    obtain ⟨hsl, -⟩ := chanLoop_get data _ cc (0x138 + 4 * cc) 0 sufs hsufs2
    simp [List.length_zipWith, hnl, hsl]
  · unfold X431.extract_data_rows at hrows
    simp only [Option.bind_eq_some] at hrows
    obtain ⟨v16, h16, rc, h32, hx⟩ := hrows
    by_cases hc0 : cc = 0
    · rw [if_pos hc0] at hx
      cases hx
    · rw [if_neg hc0] at hx
      cases hx
      intro r hr
      exact rowsLoop_mem data pv cc _ _ _ r hr

/-- Witness for c8_output_shape at the example buffer (2 channels, 3
headers, rows of 3 cells). -/
theorem c8_output_shape_witness :
    (["Num", "1. Speed (km/h)", "2. RPM (rpm)"] : List String).length = 2 + 1 ∧
    ∀ r ∈ ([["1", "Speed", "rpm"], ["2", "RPM", "km/h"]] : List (List String)),
      r.length = 2 + 1 :=
  c8_output_shape testData 2 ["Num", "1. Speed (km/h)", "2. RPM (rpm)"]
    [["1", "Speed", "rpm"], ["2", "RPM", "km/h"]] (by decide) (by decide)
